import Mathlib

/-!
Verification of the `reflectapi` Python runtime library against its
natural-language specification.  Python values that flow through the
runtime's serialization helpers are shallowly embedded as the mutual
inductive `PyVal`/`PyFields`/`PyItems`; the runtime's functions
(`option.py`, `client.py`, `middleware.py`, `auth.py`, `batch.py`,
`response.py`, `testing.py`) are translated into executable Lean
definitions and the specified properties are proved about them.
Wall-clock time is made explicit: functions that read the clock take
the elapsed time as an argument, and the retry middleware's random
jitter is an explicit argument constrained to the range Python's
`random.uniform` draws from.
-/

mutual

/-- A shallow embedding of the Python values handled by the runtime's
serialization helpers.  `pyUndefined` is the module-level `Undefined`
sentinel from `option.py`; `pyOpt stored` is a `ReflectapiOption`
object whose `_value` attribute is `stored` (so `pyOpt pyUndefined` is
the undefined state, `pyOpt pyNone` the explicit-null state, and any
other `stored` the `Some` state, exactly as the Python identity tests
`_value is Undefined` / `_value is None` classify it).  Dictionaries
keep their (insertion-ordered) entries as a `PyFields` spine and lists
their items as a `PyItems` spine. -/
inductive PyVal where
  | pyUndefined : PyVal
  | pyNone : PyVal
  | pyBool (b : Bool) : PyVal
  | pyInt (n : Int) : PyVal
  | pyStr (s : String) : PyVal
  | pyOpt (stored : PyVal) : PyVal
  | pyDict (entries : PyFields) : PyVal
  | pyList (items : PyItems) : PyVal

/-- The key/value entries of an embedded Python dictionary, in
insertion order. -/
inductive PyFields where
  | nil : PyFields
  | cons (key : String) (value : PyVal) (rest : PyFields) : PyFields

/-- The items of an embedded Python list, in order. -/
inductive PyItems where
  | nil : PyItems
  | cons (head : PyVal) (rest : PyItems) : PyItems

end

namespace PyFields

/-- Number of entries (Python `len` of the dictionary). -/
def length : PyFields → Nat
  | .nil => 0
  | .cons _ _ rest => 1 + rest.length

/-- The keys of the dictionary, in order. -/
def keys : PyFields → List String
  | .nil => []
  | .cons k _ rest => k :: rest.keys

/-- The value stored under the first occurrence of key `k`, if any
(Python `d.get(k)`; for a well-formed dictionary keys are unique, so
"first" is the only occurrence). -/
def lookup (k : String) : PyFields → Option PyVal
  | .nil => none
  | .cons key value rest => if key = k then some value else rest.lookup k

end PyFields

namespace PyVal

/-- `ReflectapiOption.is_undefined` applied to the stored `_value`:
the Python test `self._value is Undefined`. -/
def optIsUndefined (stored : PyVal) : Bool :=
  match stored with
  | .pyUndefined => true
  | _ => false

/-- `ReflectapiOption.is_none` applied to the stored `_value`:
the Python test `self._value is None`. -/
def optIsNone (stored : PyVal) : Bool :=
  match stored with
  | .pyNone => true
  | _ => false

/-- The Python test `isinstance(value, ReflectapiOption)`. -/
def isOpt (v : PyVal) : Bool :=
  match v with
  | .pyOpt _ => true
  | _ => false

/-- The Python test `value is None` on a bare (non-option) value. -/
def isNone (v : PyVal) : Bool :=
  match v with
  | .pyNone => true
  | _ => false

end PyVal

open PyVal

/-! ## `option.py` — the `ReflectapiOption` class

A `ReflectapiOption` object is fully determined by its `_value`
attribute, so the class-level operations are embedded as functions of
the stored `PyVal`. -/

namespace ReflectapiOption

/-- `ReflectapiOption.is_some`: not undefined and not `None`. -/
def is_some (stored : PyVal) : Bool :=
  !optIsUndefined stored && !optIsNone stored

/-- `ReflectapiOption.unwrap`: the stored value, or the documented
`ValueError` message for the undefined and explicit-null states. -/
def unwrap (stored : PyVal) : Except String PyVal :=
  if optIsUndefined stored then .error "Cannot unwrap undefined option"
  else if optIsNone stored then .error "Cannot unwrap None option"
  else .ok stored

/-- `ReflectapiOption.map`: the stored `_value` of the option returned
by `map(func)` — `ReflectapiOption(func(self._value))` when the option
is `Some`, otherwise `ReflectapiOption(self._value)` unchanged. -/
def map (func : PyVal → PyVal) (stored : PyVal) : PyVal :=
  if is_some stored then func stored else stored

end ReflectapiOption

/-- The pydantic schema-level `serialize_option` from
`ReflectapiOption.__get_pydantic_core_schema__` in `option.py`:
returns `None` for the undefined state and the stored `_value`
otherwise (so both `Undefined` and explicit `Null` render as JSON
`null`). -/
def serialize_option (stored : PyVal) : PyVal :=
  if optIsUndefined stored then .pyNone else stored

mutual

/-- `serialize_option_dict` from `option.py`: strips `ReflectapiOption`
wrappers from a dictionary.  An entry whose value is an option is
dropped when the option is undefined and replaced by the option's
stored `_value` otherwise; a dictionary value is processed recursively;
a list value is processed item by item by `serializeOptionItems`; every
other value is kept as it is. -/
def serialize_option_dict : PyFields → PyFields
  | .nil => .nil
  | .cons k v rest =>
    match v with
    | .pyOpt stored =>
        if optIsUndefined stored then serialize_option_dict rest
        else .cons k stored (serialize_option_dict rest)
    | .pyDict entries =>
        .cons k (.pyDict (serialize_option_dict entries)) (serialize_option_dict rest)
    | .pyList items =>
        .cons k (.pyList (serializeOptionItems items)) (serialize_option_dict rest)
    | other => .cons k other (serialize_option_dict rest)

/-- The `for item in value` loop inside `serialize_option_dict`'s list
branch: option items are dropped (undefined) or unwrapped to their
stored `_value`, dictionary items are processed recursively, and every
other item — including a nested list — is appended unchanged. -/
def serializeOptionItems : PyItems → PyItems
  | .nil => .nil
  | .cons item rest =>
    match item with
    | .pyOpt stored =>
        if optIsUndefined stored then serializeOptionItems rest
        else .cons stored (serializeOptionItems rest)
    | .pyDict entries =>
        .cons (.pyDict (serialize_option_dict entries)) (serializeOptionItems rest)
    | other => .cons other (serializeOptionItems rest)

end

/-! ## `client.py` — typed-record request body serialization

`ClientBase._serialize_request_body` receives a pydantic model; its
`model_dump(exclude_none=False)` is embedded as an association list of
field name to `PyVal` (python-mode dumping leaves `ReflectapiOption`
field values as the option objects themselves, since the schema
serializer is registered for JSON mode only). -/

/-- The guard in `_serialize_request_body`: `any(isinstance(v,
ReflectapiOption) for v in raw_data.values())`. -/
def has_reflectapi_options (raw : List (String × PyVal)) : Bool :=
  raw.any fun kv => isOpt kv.2

/-- The `for field_name, field_value in raw_data.items()` loop of
`_serialize_request_body`'s option-aware path: an option field is
skipped entirely when undefined and included as its stored `_value`
otherwise (explicit null included as `None`); a non-option field is
included only when its value is not `None`. -/
def processedFields (raw : List (String × PyVal)) : List (String × PyVal) :=
  raw.filterMap fun kv =>
    match kv.2 with
    | .pyOpt stored =>
        if optIsUndefined stored then none else some (kv.1, stored)
    | other => if isNone other then none else some (kv.1, other)

/-- Models the pydantic boundary call
`json_model.model_dump_json(exclude_none=True)` for a flat record:
fields whose value is `None` are excluded; option fields would render
through the schema-level `serialize_option` (this branch is only
reached when no field value is an option, so that case is vacuous
here). -/
def model_dump_json_exclude_none (raw : List (String × PyVal)) : List (String × PyVal) :=
  raw.filterMap fun kv =>
    match kv.2 with
    | .pyNone => none
    | .pyOpt stored => some (kv.1, serialize_option stored)
    | other => some (kv.1, other)

/-- `ClientBase._serialize_request_body`: the JSON object of the wire
body (as its field map) together with the headers the step produces.
When any field value is a `ReflectapiOption`, the option-aware path is
taken; otherwise the record's ordinary pydantic JSON encoding with
`exclude_none=True` is used.  `Content-Type: application/json` is set
in both cases. -/
def serialize_request_body (raw : List (String × PyVal)) :
    List (String × PyVal) × List (String × String) :=
  if has_reflectapi_options raw then
    (processedFields raw, [("Content-Type", "application/json")])
  else
    (model_dump_json_exclude_none raw, [("Content-Type", "application/json")])

/-- Python `d.get(k)` on an association-list dictionary: the value
under the first occurrence of key `k` (dictionaries have unique keys,
so "first" is the only occurrence). -/
def assocLookup (k : String) : List (String × PyVal) → Option PyVal
  | [] => none
  | (key, v) :: rest => if key = k then some v else assocLookup k rest

/-! ## `middleware.py` — `RetryMiddleware` -/

/-- One outcome of invoking the wrapped `next_call`: either an HTTP
response (identified by its status code) or a transport-level
`httpx.RequestError` (identified by a message). -/
inductive CallOutcome where
  | resp (status : Nat) : CallOutcome
  | transportFailure (e : String) : CallOutcome
  deriving DecidableEq, Repr

/-- What `RetryMiddleware.handle` does overall: returns a response or
re-raises a transport error. -/
inductive RetryOutcome where
  | returned (status : Nat) : RetryOutcome
  | raised (e : String) : RetryOutcome
  deriving DecidableEq, Repr

/-- `RetryMiddleware.IDEMPOTENT_METHODS`. -/
def IDEMPOTENT_METHODS : List String :=
  ["GET", "HEAD", "OPTIONS", "PUT", "DELETE", "TRACE"]

/-- The `for attempt in range(self.max_retries + 1)` loop of
`RetryMiddleware.handle`.  `attempt` is the zero-based attempt index
and `remaining = max_retries - attempt` counts the attempts still
allowed after this one (so `remaining = 0` exactly when
`attempt == max_retries`).  `outcomes i` is what the wrapped
`next_call` produces on its `i`-th invocation.  Returns the overall
outcome together with the number of `next_call` invocations performed.
A response is returned as-is when this is the final attempt or its
status is not in the retry set; a transport error is re-raised when
the method is not idempotent or this is the final attempt; in every
other case the loop sleeps (modelled separately by `sleep_duration`)
and retries. -/
def retryAux (retrySet : List Nat) (idem : Bool) (outcomes : Nat → CallOutcome) :
    Nat → Nat → RetryOutcome × Nat
  | attempt, 0 =>
    match outcomes attempt with
    | .resp s => (.returned s, 1)
    | .transportFailure e => (.raised e, 1)
  | attempt, remaining + 1 =>
    match outcomes attempt with
    | .resp s =>
        if s ∈ retrySet then
          let r := retryAux retrySet idem outcomes (attempt + 1) remaining
          (r.1, r.2 + 1)
        else (.returned s, 1)
    | .transportFailure e =>
        if idem then
          let r := retryAux retrySet idem outcomes (attempt + 1) remaining
          (r.1, r.2 + 1)
        else (.raised e, 1)

/-- `RetryMiddleware.handle` for a middleware configured with
`max_retries` and `retry_status_codes`, handling a request with the
given method against the sequence of `next_call` outcomes. -/
def retryHandle (max_retries : Nat) (retry_status_codes : List Nat) (method : String)
    (outcomes : Nat → CallOutcome) : RetryOutcome × Nat :=
  retryAux retry_status_codes (method ∈ IDEMPOTENT_METHODS) outcomes 0 max_retries

/-- `temp = min(self.backoff_factor * (2**attempt), 30.0)` — the capped
exponential backoff for the zero-based attempt index. -/
def backoffTemp (backoff_factor : ℚ) (attempt : Nat) : ℚ :=
  min (backoff_factor * 2 ^ attempt) 30

/-- `sleep_duration = temp / 2 + random.uniform(0, temp / 2)`; the
random draw is the explicit argument `u`. -/
def sleep_duration (backoff_factor : ℚ) (attempt : Nat) (u : ℚ) : ℚ :=
  backoffTemp backoff_factor attempt / 2 + u

/-! ## `auth.py` — `AuthToken` and the OAuth2 token cache -/

/-- The `AuthToken` dataclass.  The creation timestamp is not stored;
instead `is_expired` takes the elapsed time since construction
(`time.time() - self._created_at`) as an explicit argument. -/
structure AuthToken where
  access_token : String
  token_type : String := "Bearer"
  expires_in : Option ℚ := none
  refresh_token : Option String := none
  scope : Option String := none
  deriving DecidableEq, Repr

/-- `AuthToken.is_expired`: `False` when `expires_in` is `None`,
otherwise `elapsed >= expires_in - 60` (the 60-second clock-skew
buffer). -/
def AuthToken.is_expired (t : AuthToken) (elapsed : ℚ) : Bool :=
  match t.expires_in with
  | none => false
  | some e => decide (e - 60 ≤ elapsed)

/-- The refresh decision of
`OAuth2ClientCredentialsAuth._get_valid_token_sync` (and its async
twin): the cached token is returned only when one is present and not
expired; in every other case a token request is performed.  Returns
`true` exactly when a token request is performed. -/
def getValidTokenPerformsRequest (cached : Option AuthToken) (elapsed : ℚ) : Bool :=
  match cached with
  | none => true
  | some t => t.is_expired elapsed

/-! ## `response.py` and `batch.py` — `ApiResponse`, `TransportMetadata`,
`BatchClient` -/

/-- The `raw_response` slot of a `TransportMetadata`: either a real
`httpx.Response` (identified by a tag) or the `BATCH_NO_RESPONSE`
sentinel used by `batch.py` when no HTTP request occurred. -/
inductive RawResponseTag where
  | real (tag : Nat) : RawResponseTag
  | batchNoResponse : RawResponseTag
  deriving DecidableEq, Repr

/-- `TransportMetadata` from `response.py`. -/
structure TransportMetadata where
  status_code : Nat
  headers : List (String × String)
  timing : ℚ
  raw_response : RawResponseTag
  deriving DecidableEq, Repr

/-- `ApiResponse` from `response.py`, wrapping a decoded value and its
transport metadata. -/
structure ApiResponse (α : Type) where
  value : α
  metadata : TransportMetadata
  deriving DecidableEq, Repr

/-- `ApiError` from `exceptions.py` as used by `batch.py`: a message
and an optional underlying cause (identified by its rendering). -/
structure ApiError where
  message : String
  cause : Option String := none
  deriving DecidableEq, Repr

/-- `BatchResult[T] = Union[ApiResponse[T], ApiError]` from
`types.py`. -/
abbrev BatchResult (α : Type) := ApiResponse α ⊕ ApiError

/-- The raw outcome of awaiting one batch task, before
`execute_with_semaphore` normalizes it: the task returned a value
that is already an `ApiResponse`, already an `ApiError`, or a plain
value; or it raised an exception that is an `ApiError`, or any other
exception (identified by its rendering `str(e)`). -/
inductive BatchTaskOutcome (α : Type) where
  | completedApiResponse (r : ApiResponse α) : BatchTaskOutcome α
  | completedApiError (e : ApiError) : BatchTaskOutcome α
  | completedValue (v : α) : BatchTaskOutcome α
  | raisedApiError (e : ApiError) : BatchTaskOutcome α
  | raisedOther (details : String) : BatchTaskOutcome α

/-- The body of `execute_with_semaphore` in `BatchClient.gather`
(minus the semaphore, which only bounds concurrency): an
`ApiResponse`/`ApiError` return value passes through unchanged; any
other return value is wrapped in an `ApiResponse` with placeholder
metadata (status 200, empty headers, zero timing, the
`BATCH_NO_RESPONSE` sentinel); a raised `ApiError` becomes that error;
any other exception becomes a generic `ApiError` whose message is
`"Unexpected error in batch operation: <details>"` with the original
exception as cause. -/
def execute_with_semaphore : BatchTaskOutcome α → BatchResult α
  | .completedApiResponse r => .inl r
  | .completedApiError e => .inr e
  | .completedValue v => .inl ⟨v, ⟨200, [], 0, .batchNoResponse⟩⟩
  | .raisedApiError e => .inr e
  | .raisedOther details =>
      .inr ⟨"Unexpected error in batch operation: " ++ details, some details⟩

/-- `BatchClient.gather`: `asyncio.gather` evaluates
`execute_with_semaphore` for every queued task and returns the results
in task-submission order (the list is `[]` when no tasks are
queued). -/
def BatchClient.gather (tasks : List (BatchTaskOutcome α)) : List (BatchResult α) :=
  tasks.map execute_with_semaphore

/-! ## `response.py` — delegation of `in`, `len` and indexing -/

/-- Whether the wrapped value's type implements `__contains__`
(`hasattr(self._value, "__contains__")`): of the embedded Python
types, `dict`, `list` and `str` do. -/
def hasContainsAttr : PyVal → Bool
  | .pyDict _ => true
  | .pyList _ => true
  | .pyStr _ => true
  | _ => false

/-- Whether the wrapped value's type implements `__len__`. -/
def hasLenAttr : PyVal → Bool
  | .pyDict _ => true
  | .pyList _ => true
  | .pyStr _ => true
  | _ => false

/-- Whether the wrapped value's type implements `__getitem__`. -/
def hasGetItemAttr : PyVal → Bool
  | .pyDict _ => true
  | .pyList _ => true
  | .pyStr _ => true
  | _ => false

/-- Python's `type(v).__name__` for the embedded values. -/
def typeName : PyVal → String
  | .pyUndefined => "_UndefinedType"
  | .pyNone => "NoneType"
  | .pyBool _ => "bool"
  | .pyInt _ => "int"
  | .pyStr _ => "str"
  | .pyOpt _ => "ReflectapiOption"
  | .pyDict _ => "dict"
  | .pyList _ => "list"

mutual

/-- Structural equality of embedded Python values, modelling `==` as
`item in list` uses it for the plain data values that appear in
responses. -/
def pyBeq : PyVal → PyVal → Bool
  | .pyUndefined, .pyUndefined => true
  | .pyNone, .pyNone => true
  | .pyBool a, .pyBool b => a == b
  | .pyInt a, .pyInt b => a == b
  | .pyStr a, .pyStr b => a == b
  | .pyOpt a, .pyOpt b => pyBeq a b
  | .pyDict a, .pyDict b => pyBeqFields a b
  | .pyList a, .pyList b => pyBeqItems a b
  | _, _ => false

/-- Entry-wise equality of embedded dictionaries. -/
def pyBeqFields : PyFields → PyFields → Bool
  | .nil, .nil => true
  | .cons k v r, .cons k2 v2 r2 => k == k2 && pyBeq v v2 && pyBeqFields r r2
  | _, _ => false

/-- Item-wise equality of embedded lists. -/
def pyBeqItems : PyItems → PyItems → Bool
  | .nil, .nil => true
  | .cons a r, .cons b r2 => pyBeq a b && pyBeqItems r r2
  | _, _ => false

end

/-- Membership test on the items of an embedded list. -/
def itemsContain (items : PyItems) (x : PyVal) : Bool :=
  match items with
  | .nil => false
  | .cons h rest => pyBeq h x || itemsContain rest x

/-- Python `item in value` for values whose type implements
`__contains__`: dictionary membership tests the keys, list membership
tests the items, string membership tests for a substring. -/
def pyContains (v item : PyVal) : Bool :=
  match v, item with
  | .pyDict entries, .pyStr s => (entries.lookup s).isSome
  | .pyDict _, _ => false
  | .pyList items, x => itemsContain items x
  | .pyStr s, .pyStr sub => (s.splitOn sub).length > 1 || sub = ""
  | _, _ => false

/-- Python `len(value)` for values whose type implements `__len__`. -/
def pyLen : PyVal → Nat
  | .pyDict entries => entries.length
  | .pyList items => itemsLength items
  | .pyStr s => s.length
  | _ => 0
where
  itemsLength : PyItems → Nat
  | .nil => 0
  | .cons _ rest => 1 + itemsLength rest

/-- Python `value[key]` for values whose type implements
`__getitem__`: dictionary lookup (raising `KeyError` when absent) or
list indexing (raising `IndexError` when out of range; negative
indices count from the end). -/
def pyGetItem (v key : PyVal) : Except String PyVal :=
  match v, key with
  | .pyDict entries, .pyStr s =>
      match entries.lookup s with
      | some w => .ok w
      | none => .error ("KeyError: " ++ s)
  | .pyDict _, _ => .error "KeyError"
  | .pyList items, .pyInt n =>
      let len := pyLen (.pyList items)
      let idx : Int := if n < 0 then n + len else n
      if 0 ≤ idx ∧ idx.toNat < len then
        .ok (itemsGet items idx.toNat)
      else .error "IndexError: list index out of range"
  | _, _ => .error "TypeError"
where
  itemsGet : PyItems → Nat → PyVal
  | .nil, _ => .pyNone
  | .cons h _, 0 => h
  | .cons _ rest, n + 1 => itemsGet rest n

/-- `ApiResponse.__contains__`: delegates to the wrapped value when it
supports containment, otherwise reports `False`. -/
def ApiResponse.containsItem (r : ApiResponse PyVal) (item : PyVal) : Bool :=
  if hasContainsAttr r.value then pyContains r.value item else false

/-- `ApiResponse.__len__`: delegates to the wrapped value when it
supports `len`, otherwise raises the descriptive `TypeError`. -/
def ApiResponse.lengthOf (r : ApiResponse PyVal) : Except String Nat :=
  if hasLenAttr r.value then .ok (pyLen r.value)
  else .error ("object of type \x27" ++ typeName r.value ++ "\x27 has no len()")

/-- `ApiResponse.__getitem__`: delegates to the wrapped value when it
supports indexing, otherwise raises the descriptive `TypeError`. -/
def ApiResponse.getItem (r : ApiResponse PyVal) (key : PyVal) : Except String PyVal :=
  if hasGetItemAttr r.value then pyGetItem r.value key
  else .error ("\x27" ++ typeName r.value ++ "\x27 object is not subscriptable")

/-! ## `testing.py` — cassette middleware -/

/-- An outbound HTTP request as the middleware sees it. -/
structure HttpRequest where
  method : String
  url : String
  headers : List (String × String) := []
  content : Option String := none
  deriving DecidableEq, Repr

/-- An HTTP response as the middleware returns it. -/
structure HttpResponse where
  status_code : Nat
  headers : List (String × String) := []
  content : String := ""
  reason_phrase : String := ""
  deriving DecidableEq, Repr

/-- One recorded cassette interaction: plain-data snapshots of a
request and its response. -/
structure Interaction where
  request : HttpRequest
  response : HttpResponse
  deriving DecidableEq, Repr

/-- `CassetteClient`'s mode: `"record"` or `"playback"`. -/
inductive CassetteMode where
  | recordMode : CassetteMode
  | playbackMode : CassetteMode
  deriving DecidableEq, Repr

/-- The state of a `CassetteClient` relevant to the middleware:
its mode, the `allow_new_requests` flag, the interactions loaded for
playback, and the interactions recorded so far. -/
structure CassetteClient where
  mode : CassetteMode
  allow_new_requests : Bool
  playback_interactions : List Interaction := []
  recorded_interactions : List Interaction := []
  deriving DecidableEq, Repr

/-- `CassetteClient.is_recording`. -/
def CassetteClient.is_recording (c : CassetteClient) : Bool :=
  match c.mode with
  | .recordMode => true
  | .playbackMode => false

/-- `CassetteClient.is_playback`. -/
def CassetteClient.is_playback (c : CassetteClient) : Bool :=
  match c.mode with
  | .recordMode => false
  | .playbackMode => true

/-- `CassetteClient.record_interaction`: appends a snapshot of the
interaction while in recording mode and is a no-op otherwise. -/
def CassetteClient.record_interaction (c : CassetteClient) (req : HttpRequest)
    (resp : HttpResponse) : CassetteClient :=
  if c.is_recording then
    { c with recorded_interactions := c.recorded_interactions ++ [⟨req, resp⟩] }
  else c

/-- `CassetteClient.find_matching_response`: in playback mode, scans
the loaded interactions for one whose recorded method and URL equal
the request's and synthesizes a response from the recorded data;
returns nothing otherwise. -/
def CassetteClient.find_matching_response (c : CassetteClient) (req : HttpRequest) :
    Option HttpResponse :=
  if c.is_playback then
    (c.playback_interactions.find? fun i =>
      i.request.method == req.method && i.request.url == req.url).map
      fun i => i.response
  else none

/-- `CassetteMiddleware.handle` (and its async twin) exactly as
shipped: the body is `return next_call(request)` — a pass-through to
the next handler with no recording or playback.  The result is paired
with the number of `next_call` invocations performed (always 1). -/
def CassetteMiddleware.handle (_c : CassetteClient) (req : HttpRequest)
    (next_call : HttpRequest → HttpResponse) : HttpResponse × Nat :=
  (next_call req, 1)

/-- `CassetteMiddleware.process_request` (and its async twin): in
recording mode the real call is performed and then recorded; in
playback mode a matching recorded response is returned if one exists,
otherwise the real call is performed and recorded when
`allow_new_requests` is set, and the documented `ValueError` is raised
when it is not.  The success value carries the response, the updated
cassette client, and the number of real network sends performed. -/
def CassetteMiddleware.process_request (c : CassetteClient) (req : HttpRequest)
    (send : HttpRequest → HttpResponse) :
    Except String (HttpResponse × CassetteClient × Nat) :=
  if c.is_recording then
    let response := send req
    .ok (response, c.record_interaction req response, 1)
  else
    match c.find_matching_response req with
    | some recorded => .ok (recorded, c, 0)
    | none =>
        if c.allow_new_requests then
          let response := send req
          .ok (response, c.record_interaction req response, 1)
        else
          .error ("No recorded response found for " ++ req.method ++ " " ++ req.url ++
            " and new requests are not allowed")

/-! ## Helper lemmas -/

/-- Induction along the entry spine of a `PyFields` (the mutual
recursor needs all three motives, so the spine-only principle is
derived by recursion). -/
theorem PyFields.spineInduction {motive : PyFields → Prop} (hnil : motive .nil)
    (hcons : ∀ k v rest, motive rest → motive (.cons k v rest)) : ∀ e, motive e
  | .nil => hnil
  | .cons k v rest => hcons k v rest (PyFields.spineInduction hnil hcons rest)

/-- `optIsUndefined` is `false` exactly away from the sentinel. -/
theorem optIsUndefined_eq_false {x : PyVal} (h : x ≠ .pyUndefined) :
    optIsUndefined x = false := by
  cases x <;> simp_all [optIsUndefined]

/-- `optIsNone` is `false` exactly away from `None`. -/
theorem optIsNone_eq_false {x : PyVal} (h : x ≠ .pyNone) :
    optIsNone x = false := by
  cases x <;> simp_all [optIsNone]


/-! ## Claim C5 — `AuthToken` expiry -/

/-- C5: an `AuthToken` constructed with `expires_in = E` reports
`is_expired = false` while the elapsed time since construction is
`< E - 60` seconds and `is_expired = true` once the elapsed time is
`≥ E - 60` seconds; a token constructed without `expires_in` reports
`is_expired = false` at every elapsed time. -/
theorem auth_token_expiry (tok : AuthToken) (E elapsed : ℚ) :
    (tok.expires_in = some E → elapsed < E - 60 → tok.is_expired elapsed = false) ∧
    (tok.expires_in = some E → E - 60 ≤ elapsed → tok.is_expired elapsed = true) ∧
    (tok.expires_in = none → tok.is_expired elapsed = false) := by
  refine ⟨?_, ?_, ?_⟩ <;> intro h
  · intro hlt
    simp only [AuthToken.is_expired, h, decide_eq_false_iff_not, not_le]
    exact hlt
  · intro hle
    simp only [AuthToken.is_expired, h, decide_eq_true_eq]
    exact hle
  · simp [AuthToken.is_expired, h]

/-- Witness for `auth_token_expiry`: a 3600-second token is fresh at
100 seconds and expired at 3540 seconds; a token without `expires_in`
is fresh at 100000 seconds. -/
theorem auth_token_expiry_witness :
    ((⟨"tk", "Bearer", some 3600, none, none⟩ : AuthToken).is_expired 100 = false) ∧
    ((⟨"tk", "Bearer", some 3600, none, none⟩ : AuthToken).is_expired 3540 = true) ∧
    ((⟨"tk", "Bearer", none, none, none⟩ : AuthToken).is_expired 100000 = false) :=
  ⟨(auth_token_expiry _ 3600 100).1 rfl (by norm_num),
   (auth_token_expiry _ 3600 3540).2.1 rfl (by norm_num),
   (auth_token_expiry ⟨"tk", "Bearer", none, none, none⟩ 0 100000).2.2 rfl⟩

/-! ## Claim C10 — tokens with `expires_in ≤ 60` are born expired -/

/-- C10: for an `AuthToken` constructed with `expires_in = E` where
`E ≤ 60` (including the short-lived case `E = 60`), `is_expired` is
already `true` at construction time (elapsed time `0`) and stays
`true` at every non-negative elapsed time, because `elapsed ≥ E - 60`
holds from `0` on; consequently the OAuth2 token cache never signs a
request with such a token without performing a token request first. -/
theorem auth_token_short_expiry_always_expired (tok : AuthToken) (E elapsed : ℚ)
    (hE : tok.expires_in = some E) (hshort : E ≤ 60) (helapsed : 0 ≤ elapsed) :
    tok.is_expired elapsed = true ∧
    getValidTokenPerformsRequest (some tok) elapsed = true := by
  have hexp : tok.is_expired elapsed = true := by
    simp only [AuthToken.is_expired, hE, decide_eq_true_eq]
    linarith
  exact ⟨hexp, by simp [getValidTokenPerformsRequest, hexp]⟩

/-- Witness for `auth_token_short_expiry_always_expired`: a token with
`expires_in = 60` is expired at elapsed time `0`, i.e. immediately at
construction. -/
theorem auth_token_short_expiry_always_expired_witness :
    (⟨"tk", "Bearer", some 60, none, none⟩ : AuthToken).is_expired 0 = true ∧
    getValidTokenPerformsRequest (some ⟨"tk", "Bearer", some 60, none, none⟩) 0 = true :=
  auth_token_short_expiry_always_expired _ 60 0 rfl (by norm_num) (by norm_num)

/-! ## Claim C7 — retry backoff bounds -/

/-- C7: with `backoff_factor = b`, the sleep before the retry that
follows zero-based attempt `i` lies in `[temp / 2, temp]` where
`temp = min(b * 2 ^ i, 30.0)`, for every admissible draw `u` of
`random.uniform(0, temp / 2)`; in particular no backoff sleep exceeds
30 seconds. -/
theorem retry_backoff_bounds (b : ℚ) (i : Nat) (u : ℚ)
    (h0 : 0 ≤ u) (h1 : u ≤ backoffTemp b i / 2) :
    backoffTemp b i / 2 ≤ sleep_duration b i u ∧
    sleep_duration b i u ≤ backoffTemp b i ∧
    sleep_duration b i u ≤ 30 := by
  have hcap : backoffTemp b i ≤ 30 := min_le_right _ _
  unfold sleep_duration
  refine ⟨by linarith, by linarith, by linarith⟩

/-- Witness for `retry_backoff_bounds` at the default
`backoff_factor = 0.5`, attempt `0`, draw `1/8`. -/
theorem retry_backoff_bounds_witness :
    backoffTemp (1 / 2) 0 / 2 ≤ sleep_duration (1 / 2) 0 (1 / 8) ∧
    sleep_duration (1 / 2) 0 (1 / 8) ≤ backoffTemp (1 / 2) 0 ∧
    sleep_duration (1 / 2) 0 (1 / 8) ≤ 30 :=
  retry_backoff_bounds (1 / 2) 0 (1 / 8) (by norm_num)
    (by norm_num [backoffTemp])


/-! ## Claim C4 — cassette middleware bridged into the chain -/

/-- C4 (code bug): the behaviour the claim describes lives in
`CassetteMiddleware.process_request`, but the method the middleware
chain actually invokes, `CassetteMiddleware.handle`, is a pass-through
stub (`return next_call(request)`).  Evaluated at the failing input —
a playback-mode cassette with no recorded interactions and
`allow_new_requests = False`, handling `GET http://example.com/api` —
the chain path performs the network call and returns its response
instead of raising, while `process_request` on the same input raises
the documented error without a network call. -/
theorem cassette_middleware_handle_stub_divergence :
    (CassetteMiddleware.handle
        ⟨.playbackMode, false, [], []⟩
        ⟨"GET", "http://example.com/api", [], none⟩
        (fun _ => ⟨200, [], "\x7b\x7d", "OK"⟩) =
      (⟨200, [], "\x7b\x7d", "OK"⟩, 1)) ∧
    (CassetteMiddleware.process_request
        ⟨.playbackMode, false, [], []⟩
        ⟨"GET", "http://example.com/api", [], none⟩
        (fun _ => ⟨200, [], "\x7b\x7d", "OK"⟩) =
      .error
        "No recorded response found for GET http://example.com/api and new requests are not allowed") :=
  ⟨rfl, rfl⟩

/-! ## Claim C8 — `ReflectapiOption` unwrap/map laws -/

/-- C8 counterexample: the claim states
`ReflectapiOption(x).map(f).unwrap() == f(x)` for ANY function `f`,
but for `x = 5` and `f` constantly `None` the mapped option is in the
explicit-null state and `unwrap` raises
`"Cannot unwrap None option"` instead of returning `f(x) = None`. -/
theorem option_map_unwrap_counterexample :
    ReflectapiOption.map (fun _ => .pyNone) (.pyInt 5) = .pyNone ∧
    ReflectapiOption.unwrap (ReflectapiOption.map (fun _ => .pyNone) (.pyInt 5)) =
      .error "Cannot unwrap None option" :=
  ⟨rfl, rfl⟩

/-- C8 (amended): for every value `x` that is neither the `Undefined`
sentinel nor `None`, `ReflectapiOption(x).unwrap() == x`, and
`ReflectapiOption(x).map(f).unwrap() == f(x)` for every function `f`
whose result at `x` is itself neither the sentinel nor `None` (when
`f(x)` is `None` or the sentinel, the mapped option is in the
null/undefined state and `unwrap` raises accordingly);
`ReflectapiOption(Undefined).unwrap()` and
`ReflectapiOption(None).unwrap()` raise their documented errors; and
`map` returns an option in the same state when applied to an
`Undefined` or `None` option. -/
theorem reflectapi_option_laws (x : PyVal) (f : PyVal → PyVal) :
    (x ≠ .pyUndefined → x ≠ .pyNone → ReflectapiOption.unwrap x = .ok x) ∧
    (x ≠ .pyUndefined → x ≠ .pyNone → f x ≠ .pyUndefined → f x ≠ .pyNone →
      ReflectapiOption.unwrap (ReflectapiOption.map f x) = .ok (f x)) ∧
    (ReflectapiOption.unwrap .pyUndefined = .error "Cannot unwrap undefined option") ∧
    (ReflectapiOption.unwrap .pyNone = .error "Cannot unwrap None option") ∧
    (ReflectapiOption.map f .pyUndefined = .pyUndefined) ∧
    (ReflectapiOption.map f .pyNone = .pyNone) := by
  refine ⟨?_, ?_, rfl, rfl, rfl, rfl⟩
  · intro hu hn
    simp [ReflectapiOption.unwrap, optIsUndefined_eq_false hu, optIsNone_eq_false hn]
  · intro hu hn hfu hfn
    have hsome : ReflectapiOption.is_some x = true := by
      simp [ReflectapiOption.is_some, optIsUndefined_eq_false hu, optIsNone_eq_false hn]
    simp [ReflectapiOption.map, hsome, ReflectapiOption.unwrap,
      optIsUndefined_eq_false hfu, optIsNone_eq_false hfn]

/-- Witness for `reflectapi_option_laws` at `x = 5` and
`f = (const 6)`. -/
theorem reflectapi_option_laws_witness :
    ReflectapiOption.unwrap (.pyInt 5) = .ok (.pyInt 5) ∧
    ReflectapiOption.unwrap (ReflectapiOption.map (fun _ => .pyInt 6) (.pyInt 5)) =
      .ok (.pyInt 6) :=
  ⟨(reflectapi_option_laws (.pyInt 5) (fun _ => .pyInt 6)).1
      (fun h => PyVal.noConfusion h) (fun h => PyVal.noConfusion h),
   (reflectapi_option_laws (.pyInt 5) (fun _ => .pyInt 6)).2.1
      (fun h => PyVal.noConfusion h) (fun h => PyVal.noConfusion h)
      (fun h => PyVal.noConfusion h) (fun h => PyVal.noConfusion h)⟩


/-! ## Claim C9 — `ApiResponse` delegation of `in`, `len`, indexing -/

/-- C9: for an `ApiResponse` wrapping a mapping value, containment
checks and `len` give the same result as on the wrapped mapping; for
an `ApiResponse` wrapping a value supporting neither containment,
length nor indexing, containment reports `false` and both `len` and
indexing raise the descriptive `TypeError` naming the unsupported
operation. -/
theorem api_response_delegation (md : TransportMetadata) (entries : PyFields)
    (item key v : PyVal)
    (hc : hasContainsAttr v = false) (hl : hasLenAttr v = false)
    (hg : hasGetItemAttr v = false) :
    (ApiResponse.containsItem ⟨.pyDict entries, md⟩ item =
      pyContains (.pyDict entries) item) ∧
    (ApiResponse.lengthOf ⟨.pyDict entries, md⟩ = .ok (pyLen (.pyDict entries))) ∧
    (ApiResponse.lengthOf ⟨.pyDict entries, md⟩ = .ok entries.length) ∧
    (ApiResponse.containsItem ⟨v, md⟩ item = false) ∧
    (ApiResponse.lengthOf ⟨v, md⟩ =
      .error ("object of type \x27" ++ typeName v ++ "\x27 has no len()")) ∧
    (ApiResponse.getItem ⟨v, md⟩ key =
      .error ("\x27" ++ typeName v ++ "\x27 object is not subscriptable")) := by
  refine ⟨?_, rfl, rfl, ?_, ?_, ?_⟩
  · simp [ApiResponse.containsItem, hasContainsAttr]
  · simp [ApiResponse.containsItem, hc]
  · simp [ApiResponse.lengthOf, hl]
  · simp [ApiResponse.getItem, hg]

/-- Witness for `api_response_delegation`: a two-key mapping response
and an `int`-valued response. -/
theorem api_response_delegation_witness :
    (ApiResponse.containsItem
        ⟨.pyDict (.cons "a" (.pyInt 1) (.cons "b" (.pyInt 2) .nil)), ⟨200, [], 0, .real 0⟩⟩
        (.pyStr "a") =
      pyContains (.pyDict (.cons "a" (.pyInt 1) (.cons "b" (.pyInt 2) .nil))) (.pyStr "a")) ∧
    (ApiResponse.lengthOf
        ⟨.pyDict (.cons "a" (.pyInt 1) (.cons "b" (.pyInt 2) .nil)), ⟨200, [], 0, .real 0⟩⟩ =
      .ok 2) ∧
    (ApiResponse.containsItem ⟨.pyInt 7, ⟨200, [], 0, .real 0⟩⟩ (.pyStr "a") = false) ∧
    (ApiResponse.lengthOf ⟨.pyInt 7, ⟨200, [], 0, .real 0⟩⟩ =
      .error "object of type \x27int\x27 has no len()") ∧
    (ApiResponse.getItem ⟨.pyInt 7, ⟨200, [], 0, .real 0⟩⟩ (.pyStr "a") =
      .error "\x27int\x27 object is not subscriptable") := by
  have h := api_response_delegation ⟨200, [], 0, .real 0⟩
    (.cons "a" (.pyInt 1) (.cons "b" (.pyInt 2) .nil)) (.pyStr "a") (.pyStr "a")
    (.pyInt 7) rfl rfl rfl
  exact ⟨h.1, h.2.2.1, h.2.2.2.1, h.2.2.2.2.1, h.2.2.2.2.2⟩

/-! ## Claim C6 — batch `gather` ordering and normalization -/

/-- C6: `gather()` returns exactly one result per queued task, in
task-submission order (`asyncio.gather` preserves positions regardless
of completion order); a task returning an `ApiResponse` or `ApiError`
has that value passed through unchanged at its position; a task
returning any other value yields an `ApiResponse` wrapping it with
placeholder metadata (status 200, zero timing, the sentinel raw
response); a task raising an `ApiError` yields that error at its
position; and a task raising any other exception yields at its
position a generic `ApiError` whose message is
`"Unexpected error in batch operation: <details>"` with the original
exception as cause, while every sibling task still reports its own
result at its own position. -/
theorem batch_gather_results {α : Type} (tasks : List (BatchTaskOutcome α)) :
    ((BatchClient.gather tasks).length = tasks.length) ∧
    (∀ (i : Nat) (r : ApiResponse α), tasks[i]? = some (.completedApiResponse r) →
      (BatchClient.gather tasks)[i]? = some (.inl r)) ∧
    (∀ (i : Nat) (e : ApiError), tasks[i]? = some (.completedApiError e) →
      (BatchClient.gather tasks)[i]? = some (.inr e)) ∧
    (∀ (i : Nat) (v : α), tasks[i]? = some (.completedValue v) →
      (BatchClient.gather tasks)[i]? =
        some (.inl ⟨v, ⟨200, [], 0, .batchNoResponse⟩⟩)) ∧
    (∀ (i : Nat) (e : ApiError), tasks[i]? = some (.raisedApiError e) →
      (BatchClient.gather tasks)[i]? = some (.inr e)) ∧
    (∀ (i : Nat) (d : String), tasks[i]? = some (.raisedOther d) →
      (BatchClient.gather tasks)[i]? =
        some (.inr ⟨"Unexpected error in batch operation: " ++ d, some d⟩)) := by
  refine ⟨List.length_map _ _, ?_, ?_, ?_, ?_, ?_⟩ <;>
    · intro i x h
      simp [BatchClient.gather, List.getElem?_map, h, execute_with_semaphore]

/-- Witness for `batch_gather_results`: five queued tasks, one per
outcome kind, each reported at its own position. -/
theorem batch_gather_results_witness :
    (BatchClient.gather (α := Int)
        [.completedApiResponse ⟨7, ⟨201, [], 1, .real 0⟩⟩,
         .completedApiError ⟨"boom", none⟩,
         .completedValue 9,
         .raisedApiError ⟨"bad", none⟩,
         .raisedOther "oops"]).length = 5 ∧
    (BatchClient.gather (α := Int)
        [.completedApiResponse ⟨7, ⟨201, [], 1, .real 0⟩⟩,
         .completedApiError ⟨"boom", none⟩,
         .completedValue 9,
         .raisedApiError ⟨"bad", none⟩,
         .raisedOther "oops"])[2]? =
      some (.inl ⟨9, ⟨200, [], 0, .batchNoResponse⟩⟩) ∧
    (BatchClient.gather (α := Int)
        [.completedApiResponse ⟨7, ⟨201, [], 1, .real 0⟩⟩,
         .completedApiError ⟨"boom", none⟩,
         .completedValue 9,
         .raisedApiError ⟨"bad", none⟩,
         .raisedOther "oops"])[4]? =
      some (.inr ⟨"Unexpected error in batch operation: oops", some "oops"⟩) := by
  have h := batch_gather_results (α := Int)
    [.completedApiResponse ⟨7, ⟨201, [], 1, .real 0⟩⟩,
     .completedApiError ⟨"boom", none⟩,
     .completedValue 9,
     .raisedApiError ⟨"bad", none⟩,
     .raisedOther "oops"]
  exact ⟨h.1, h.2.2.2.1 2 9 rfl, h.2.2.2.2.2 4 "oops" rfl⟩


/-! ## Claim C2 — retry middleware attempt counts -/

/-- When every response status in the sequence is retry-eligible, the
loop runs through all remaining attempts and returns the final
response. -/
theorem retryAux_resp_all_retry (rs : List Nat) (idem : Bool) (seq : Nat → Nat)
    (h : ∀ i, seq i ∈ rs) :
    ∀ (remaining attempt : Nat),
      retryAux rs idem (fun i => .resp (seq i)) attempt remaining =
        (.returned (seq (attempt + remaining)), remaining + 1) := by
  intro remaining
  induction remaining with
  | zero => intro attempt; simp [retryAux]
  | succ r ih =>
    intro attempt
    have hidx : attempt + 1 + r = attempt + (r + 1) := by omega
    simp only [retryAux]
    rw [if_pos (h attempt), ih (attempt + 1), hidx]

/-- When the statuses at offsets `< N` are retry-eligible and the
status at offset `N ≤ remaining` is not, the loop stops after `N + 1`
invocations and returns that response. -/
theorem retryAux_resp_stops (rs : List Nat) (idem : Bool) (seq : Nat → Nat) :
    ∀ (N remaining attempt : Nat), N ≤ remaining →
      (∀ i, i < N → seq (attempt + i) ∈ rs) → seq (attempt + N) ∉ rs →
      retryAux rs idem (fun i => .resp (seq i)) attempt remaining =
        (.returned (seq (attempt + N)), N + 1) := by
  intro N
  induction N with
  | zero =>
    intro remaining attempt _ _ hN
    cases remaining with
    | zero => simp [retryAux]
    | succ r =>
      simp only [retryAux]
      rw [if_neg (by simpa using hN)]
      simp
  | succ n ih =>
    intro remaining attempt hle hall hN
    cases remaining with
    | zero => omega
    | succ r =>
      have hall' : ∀ i, i < n → seq (attempt + 1 + i) ∈ rs := by
        intro i hi
        have := hall (i + 1) (by omega)
        have hidx : attempt + (i + 1) = attempt + 1 + i := by omega
        rwa [hidx] at this
      have hN' : seq (attempt + 1 + n) ∉ rs := by
        have hidx : attempt + (n + 1) = attempt + 1 + n := by omega
        rwa [hidx] at hN
      have hmem : seq attempt ∈ rs := by
        have := hall 0 (by omega)
        simpa using this
      have hidx2 : attempt + 1 + n = attempt + (n + 1) := by omega
      simp only [retryAux]
      rw [if_pos hmem, ih r (attempt + 1) (by omega) hall' hN', hidx2]

/-- C2: for the retry middleware configured with `max_retries = M`,
over a sequence of response statuses: `N ≤ M` retry-eligible failures
followed by a non-retry-eligible (successful) status make `handle`
invoke the wrapped `next_call` exactly `N + 1` times and return that
response; a first status outside `retry_status_codes` makes it invoke
`next_call` exactly once and return that response; and a sequence of
retry-eligible failures throughout makes it invoke `next_call` exactly
`M + 1` times and return the final failing response. -/
theorem retry_middleware_attempt_counts (M : Nat) (rs : List Nat) (method : String)
    (seq : Nat → Nat) :
    (∀ N, N ≤ M → (∀ i, i < N → seq i ∈ rs) → seq N ∉ rs →
      retryHandle M rs method (fun i => .resp (seq i)) = (.returned (seq N), N + 1)) ∧
    (seq 0 ∉ rs →
      retryHandle M rs method (fun i => .resp (seq i)) = (.returned (seq 0), 1)) ∧
    ((∀ i, seq i ∈ rs) →
      retryHandle M rs method (fun i => .resp (seq i)) = (.returned (seq M), M + 1)) := by
  refine ⟨?_, ?_, ?_⟩
  · intro N hle hall hN
    have h := retryAux_resp_stops rs (method ∈ IDEMPOTENT_METHODS) seq N M 0 hle
      (by simpa using hall) (by simpa using hN)
    simpa [retryHandle] using h
  · intro hN
    have h := retryAux_resp_stops rs (method ∈ IDEMPOTENT_METHODS) seq 0 M 0
      (by omega) (by omega) (by simpa using hN)
    simpa [retryHandle] using h
  · intro hall
    have h := retryAux_resp_all_retry rs (method ∈ IDEMPOTENT_METHODS) seq hall M 0
    simpa [retryHandle] using h

/-- Witness for `retry_middleware_attempt_counts` at the default
configuration `max_retries = 3`, `retry_status_codes =
{429, 502, 503, 504}`: two 503s then a 200 give 3 invocations; an
immediate 200 gives 1 invocation; constant 503 gives 4 invocations and
surfaces the final 503. -/
theorem retry_middleware_attempt_counts_witness :
    retryHandle 3 [429, 502, 503, 504] "GET"
        (fun i => .resp (if i < 2 then 503 else 200)) = (.returned 200, 3) ∧
    retryHandle 3 [429, 502, 503, 504] "GET" (fun _ => .resp 200) = (.returned 200, 1) ∧
    retryHandle 3 [429, 502, 503, 504] "GET" (fun _ => .resp 503) = (.returned 503, 4) := by
  refine ⟨?_, ?_, ?_⟩
  · have h := (retry_middleware_attempt_counts 3 [429, 502, 503, 504] "GET"
      (fun i => if i < 2 then 503 else 200)).1 2 (by omega)
      (by intro i hi; interval_cases i <;> decide) (by decide)
    simpa using h
  · exact (retry_middleware_attempt_counts 3 [429, 502, 503, 504] "GET"
      (fun _ => 200)).2.1 (by decide)
  · exact (retry_middleware_attempt_counts 3 [429, 502, 503, 504] "GET"
      (fun _ => 503)).2.2 (by intro i; decide)


/-! ## Claim C1 — typed-record bodies and `Undefined` fields -/

/-- One step of the option-aware field loop of
`_serialize_request_body`. -/
theorem processedFields_cons (k0 : String) (v0 : PyVal) (tl : List (String × PyVal)) :
    processedFields ((k0, v0) :: tl) =
      match v0 with
      | .pyOpt stored =>
          if optIsUndefined stored then processedFields tl
          else (k0, stored) :: processedFields tl
      | other =>
          if isNone other then processedFields tl
          else (k0, other) :: processedFields tl := by
  cases v0 with
  | pyOpt stored =>
    cases hst : optIsUndefined stored with
    | false => simp [processedFields, List.filterMap_cons, hst]
    | true => simp [processedFields, List.filterMap_cons, hst]
  | pyUndefined => simp [processedFields, List.filterMap_cons, isNone]
  | pyNone => simp [processedFields, List.filterMap_cons, isNone]
  | pyBool b => simp [processedFields, List.filterMap_cons, isNone]
  | pyInt n => simp [processedFields, List.filterMap_cons, isNone]
  | pyStr s => simp [processedFields, List.filterMap_cons, isNone]
  | pyDict entries => simp [processedFields, List.filterMap_cons, isNone]
  | pyList items => simp [processedFields, List.filterMap_cons, isNone]

/-- A key absent from the input record is absent from the processed
field map. -/
theorem assocLookup_processedFields_not_mem (k : String) :
    ∀ (raw : List (String × PyVal)), k ∉ raw.map Prod.fst →
      assocLookup k (processedFields raw) = none := by
  intro raw
  induction raw with
  | nil => intro _; rfl
  | cons hd tl ih =>
    intro h
    obtain ⟨k0, v0⟩ := hd
    simp only [List.map_cons, List.mem_cons, not_or] at h
    have hne : ¬(k0 = k) := fun hh => h.1 hh.symm
    have ih' := ih h.2
    rw [processedFields_cons]
    cases v0 with
    | pyOpt stored =>
      cases hst : optIsUndefined stored with
      | false => simpa [hst, assocLookup, hne] using ih'
      | true => simpa [hst] using ih'
    | pyUndefined => simpa [isNone, assocLookup, hne] using ih'
    | pyNone => simpa [isNone] using ih'
    | pyBool b => simpa [isNone, assocLookup, hne] using ih'
    | pyInt n => simpa [isNone, assocLookup, hne] using ih'
    | pyStr s => simpa [isNone, assocLookup, hne] using ih'
    | pyDict entries => simpa [isNone, assocLookup, hne] using ih'
    | pyList items => simpa [isNone, assocLookup, hne] using ih'

/-- Key-wise characterization of the option-aware field loop of
`_serialize_request_body`: looking a key up in the processed field map
gives the input field's value transformed entry-wise — dropped for an
undefined option or a bare `None`, the stored `_value` for any other
option, unchanged otherwise. -/
theorem assocLookup_processedFields (k : String) :
    ∀ (raw : List (String × PyVal)), (raw.map Prod.fst).Nodup →
      assocLookup k (processedFields raw) =
        (assocLookup k raw).bind fun v =>
          match v with
          | .pyOpt stored => if optIsUndefined stored then none else some stored
          | other => if isNone other then none else some other := by
  intro raw
  induction raw with
  | nil => intro _; rfl
  | cons hd tl ih =>
    intro hnd
    obtain ⟨k0, v0⟩ := hd
    simp only [List.map_cons, List.nodup_cons] at hnd
    obtain ⟨hk0, hnd'⟩ := hnd
    have ih' := ih hnd'
    rw [processedFields_cons]
    by_cases hk : k0 = k
    · subst hk
      have hnm : assocLookup k0 (processedFields tl) = none :=
        assocLookup_processedFields_not_mem k0 tl hk0
      cases v0 with
      | pyOpt stored =>
        cases hst : optIsUndefined stored with
        | false => simp [hst, assocLookup]
        | true => simp [hst, assocLookup, hnm]
      | pyUndefined => simp [isNone, assocLookup]
      | pyNone => simp [isNone, assocLookup, hnm]
      | pyBool b => simp [isNone, assocLookup]
      | pyInt n => simp [isNone, assocLookup]
      | pyStr s => simp [isNone, assocLookup]
      | pyDict entries => simp [isNone, assocLookup]
      | pyList items => simp [isNone, assocLookup]
    · cases v0 with
      | pyOpt stored =>
        cases hst : optIsUndefined stored with
        | false => simpa [hst, assocLookup, hk] using ih'
        | true => simpa [hst, assocLookup, hk] using ih'
      | pyUndefined => simpa [isNone, assocLookup, hk] using ih'
      | pyNone => simpa [isNone, assocLookup, hk] using ih'
      | pyBool b => simpa [isNone, assocLookup, hk] using ih'
      | pyInt n => simpa [isNone, assocLookup, hk] using ih'
      | pyStr s => simpa [isNone, assocLookup, hk] using ih'
      | pyDict entries => simpa [isNone, assocLookup, hk] using ih'
      | pyList items => simpa [isNone, assocLookup, hk] using ih'

/-- C1 counterexample: the claim (and the optional-field wire-behavior
table) states that in the typed-record path an `Undefined` option
field is serialized as JSON `null` with its key present; in fact
`_serialize_request_body` skips such a field entirely — for a record
with fields `name = "Rex"` and `age = ReflectapiOption(Undefined)` the
wire body contains only `name`, and looking up `age` in the body finds
nothing. -/
theorem serialize_request_body_undefined_null_counterexample :
    serialize_request_body [("name", .pyStr "Rex"), ("age", .pyOpt .pyUndefined)] =
      ([("name", .pyStr "Rex")], [("Content-Type", "application/json")]) ∧
    assocLookup "age"
      (serialize_request_body [("name", .pyStr "Rex"), ("age", .pyOpt .pyUndefined)]).1 =
      none :=
  ⟨rfl, rfl⟩

/-- C1 (amended): for every request body built by the client core's
typed-record path (a `json_model` whose dump contains at least one
`ReflectapiOption` field), a field whose option is `Undefined` is
omitted from the wire body entirely (its key is absent), a field whose
option is explicit null is present with value JSON `null`, a field
whose option holds any other stored value is present with that value,
and the step sets `Content-Type: application/json`.  (The table's
"serialized as JSON `null`" for `Undefined` describes the schema-level
`serialize_option`, which this path does not use.) -/
theorem serialize_request_body_undefined_fields_omitted
    (raw : List (String × PyVal)) (k : String)
    (hopts : has_reflectapi_options raw = true)
    (hnd : (raw.map Prod.fst).Nodup) :
    (assocLookup k raw = some (.pyOpt .pyUndefined) →
      assocLookup k (serialize_request_body raw).1 = none) ∧
    (assocLookup k raw = some (.pyOpt .pyNone) →
      assocLookup k (serialize_request_body raw).1 = some .pyNone) ∧
    (∀ stored, assocLookup k raw = some (.pyOpt stored) → stored ≠ .pyUndefined →
      assocLookup k (serialize_request_body raw).1 = some stored) ∧
    ((serialize_request_body raw).2 = [("Content-Type", "application/json")]) := by
  have hbody : (serialize_request_body raw).1 = processedFields raw := by
    simp [serialize_request_body, hopts]
  have hchar := assocLookup_processedFields k raw hnd
  refine ⟨?_, ?_, ?_, by simp [serialize_request_body, hopts]⟩
  · intro h
    rw [hbody, hchar, h]
    rfl
  · intro h
    rw [hbody, hchar, h]
    rfl
  · intro stored h hst
    rw [hbody, hchar, h]
    simp [optIsUndefined_eq_false hst]

/-- Witness for `serialize_request_body_undefined_fields_omitted` on a
record with one field per option state. -/
theorem serialize_request_body_undefined_fields_omitted_witness :
    (assocLookup "age"
      (serialize_request_body
        [("name", .pyStr "Rex"), ("age", .pyOpt .pyUndefined),
         ("color", .pyOpt .pyNone), ("size", .pyOpt (.pyInt 3))]).1 = none) ∧
    (assocLookup "color"
      (serialize_request_body
        [("name", .pyStr "Rex"), ("age", .pyOpt .pyUndefined),
         ("color", .pyOpt .pyNone), ("size", .pyOpt (.pyInt 3))]).1 = some .pyNone) ∧
    (assocLookup "size"
      (serialize_request_body
        [("name", .pyStr "Rex"), ("age", .pyOpt .pyUndefined),
         ("color", .pyOpt .pyNone), ("size", .pyOpt (.pyInt 3))]).1 = some (.pyInt 3)) := by
  refine
    ⟨(serialize_request_body_undefined_fields_omitted
        [("name", .pyStr "Rex"), ("age", .pyOpt .pyUndefined),
         ("color", .pyOpt .pyNone), ("size", .pyOpt (.pyInt 3))] "age"
        rfl (by decide)).1 rfl,
     (serialize_request_body_undefined_fields_omitted
        [("name", .pyStr "Rex"), ("age", .pyOpt .pyUndefined),
         ("color", .pyOpt .pyNone), ("size", .pyOpt (.pyInt 3))] "color"
        rfl (by decide)).2.1 rfl,
     (serialize_request_body_undefined_fields_omitted
        [("name", .pyStr "Rex"), ("age", .pyOpt .pyUndefined),
         ("color", .pyOpt .pyNone), ("size", .pyOpt (.pyInt 3))] "size"
        rfl (by decide)).2.2.1 (.pyInt 3) rfl (fun h => PyVal.noConfusion h)⟩


/-! ## Claim C3 — `serialize_option_dict` at depth -/

/-- One step of `serialize_option_dict` on a non-empty dictionary. -/
theorem serialize_option_dict_cons (k0 : String) (v0 : PyVal) (rest : PyFields) :
    serialize_option_dict (.cons k0 v0 rest) =
      match v0 with
      | .pyOpt stored =>
          if optIsUndefined stored then serialize_option_dict rest
          else .cons k0 stored (serialize_option_dict rest)
      | .pyDict entries =>
          .cons k0 (.pyDict (serialize_option_dict entries)) (serialize_option_dict rest)
      | .pyList items =>
          .cons k0 (.pyList (serializeOptionItems items)) (serialize_option_dict rest)
      | other => .cons k0 other (serialize_option_dict rest) := by
  cases v0 <;> rfl

/-- A key absent from the input dictionary is absent from the
serialized dictionary. -/
theorem lookup_serialize_option_dict_not_mem (k : String) :
    ∀ (e : PyFields), k ∉ e.keys → (serialize_option_dict e).lookup k = none := by
  intro e
  induction e using PyFields.spineInduction with
  | hnil => intro _; rfl
  | hcons k0 v0 rest ih =>
    intro h
    simp only [PyFields.keys, List.mem_cons, not_or] at h
    have hne : ¬(k0 = k) := fun hh => h.1 hh.symm
    have ih' := ih h.2
    rw [serialize_option_dict_cons]
    cases v0 with
    | pyOpt stored =>
      cases hst : optIsUndefined stored with
      | false => simpa [hst, PyFields.lookup, hne] using ih'
      | true => simpa [hst] using ih'
    | pyUndefined => simpa [PyFields.lookup, hne] using ih'
    | pyNone => simpa [PyFields.lookup, hne] using ih'
    | pyBool b => simpa [PyFields.lookup, hne] using ih'
    | pyInt n => simpa [PyFields.lookup, hne] using ih'
    | pyStr s => simpa [PyFields.lookup, hne] using ih'
    | pyDict entries => simpa [PyFields.lookup, hne] using ih'
    | pyList items => simpa [PyFields.lookup, hne] using ih'

/-- Key-wise characterization of `serialize_option_dict` on a
dictionary with unique keys: looking a key up in the result gives the
input entry's value transformed — dropped for an undefined option,
the stored `_value` for any other option, the recursively serialized
entries for a dictionary, the item-wise transform for a list, and the
value unchanged otherwise. -/
theorem lookup_serialize_option_dict (k : String) :
    ∀ (e : PyFields), e.keys.Nodup →
      (serialize_option_dict e).lookup k =
        (e.lookup k).bind fun v =>
          match v with
          | .pyOpt stored => if optIsUndefined stored then none else some stored
          | .pyDict inner => some (.pyDict (serialize_option_dict inner))
          | .pyList items => some (.pyList (serializeOptionItems items))
          | other => some other := by
  intro e
  induction e using PyFields.spineInduction with
  | hnil => intro _; rfl
  | hcons k0 v0 rest ih =>
    intro hnd
    simp only [PyFields.keys, List.nodup_cons] at hnd
    obtain ⟨hk0, hnd'⟩ := hnd
    have ih' := ih hnd'
    rw [serialize_option_dict_cons]
    by_cases hk : k0 = k
    · subst hk
      have hnm : (serialize_option_dict rest).lookup k0 = none :=
        lookup_serialize_option_dict_not_mem k0 rest hk0
      cases v0 with
      | pyOpt stored =>
        cases hst : optIsUndefined stored with
        | false => simp [hst, PyFields.lookup]
        | true => simp [hst, PyFields.lookup, hnm]
      | pyUndefined => simp [PyFields.lookup]
      | pyNone => simp [PyFields.lookup]
      | pyBool b => simp [PyFields.lookup]
      | pyInt n => simp [PyFields.lookup]
      | pyStr s => simp [PyFields.lookup]
      | pyDict entries => simp [PyFields.lookup]
      | pyList items => simp [PyFields.lookup]
    · cases v0 with
      | pyOpt stored =>
        cases hst : optIsUndefined stored with
        | false => simpa [hst, PyFields.lookup, hk] using ih'
        | true => simpa [hst, PyFields.lookup, hk] using ih'
      | pyUndefined => simpa [PyFields.lookup, hk] using ih'
      | pyNone => simpa [PyFields.lookup, hk] using ih'
      | pyBool b => simpa [PyFields.lookup, hk] using ih'
      | pyInt n => simpa [PyFields.lookup, hk] using ih'
      | pyStr s => simpa [PyFields.lookup, hk] using ih'
      | pyDict entries => simpa [PyFields.lookup, hk] using ih'
      | pyList items => simpa [PyFields.lookup, hk] using ih'

/-- C3 counterexample: the claim states that every `Undefined` entry
is omitted at every depth, "including inside lists nested within
lists"; in fact a list appearing directly inside a list is passed
through unchanged, so for `{"k": [[ReflectapiOption(Undefined)]]}` the
undefined option survives serialization at its nested position. -/
theorem serialize_option_dict_nested_list_counterexample :
    serialize_option_dict
        (.cons "k" (.pyList (.cons (.pyList (.cons (.pyOpt .pyUndefined) .nil)) .nil)) .nil) =
      .cons "k" (.pyList (.cons (.pyList (.cons (.pyOpt .pyUndefined) .nil)) .nil)) .nil ∧
    (serialize_option_dict
        (.cons "k" (.pyList (.cons (.pyList (.cons (.pyOpt .pyUndefined) .nil)) .nil)) .nil)).lookup
        "k" =
      some (.pyList (.cons (.pyList (.cons (.pyOpt .pyUndefined) .nil)) .nil)) :=
  ⟨rfl, rfl⟩

/-- C3 (amended): on a nested mapping with unique keys,
`serialize_option_dict` omits every entry whose option is `Undefined`,
renders every `Null` option entry as JSON `null`, and unwraps every
`Some` entry to its raw value exactly once; it recurses into mapping
values, and into mappings appearing inside lists; options appearing
directly inside a list are likewise dropped (when undefined) or
unwrapped; all non-option entries are preserved — except that a list
appearing directly inside a list is passed through unchanged, so
options within it are not processed. -/
theorem serialize_option_dict_behavior
    (e inner : PyFields) (items restItems : PyItems) (k : String)
    (stored scalar : PyVal) (hnd : e.keys.Nodup) :
    (e.lookup k = some (.pyOpt .pyUndefined) →
      (serialize_option_dict e).lookup k = none) ∧
    (e.lookup k = some (.pyOpt .pyNone) →
      (serialize_option_dict e).lookup k = some .pyNone) ∧
    (e.lookup k = some (.pyOpt stored) → stored ≠ .pyUndefined →
      (serialize_option_dict e).lookup k = some stored) ∧
    (e.lookup k = some (.pyDict inner) →
      (serialize_option_dict e).lookup k = some (.pyDict (serialize_option_dict inner))) ∧
    (e.lookup k = some (.pyList items) →
      (serialize_option_dict e).lookup k = some (.pyList (serializeOptionItems items))) ∧
    (isOpt scalar = false → (∀ f, scalar ≠ .pyDict f) → (∀ it, scalar ≠ .pyList it) →
      e.lookup k = some scalar → (serialize_option_dict e).lookup k = some scalar) ∧
    (serializeOptionItems (.cons (.pyOpt .pyUndefined) restItems) =
      serializeOptionItems restItems) ∧
    (stored ≠ .pyUndefined →
      serializeOptionItems (.cons (.pyOpt stored) restItems) =
        .cons stored (serializeOptionItems restItems)) ∧
    (serializeOptionItems (.cons (.pyDict inner) restItems) =
      .cons (.pyDict (serialize_option_dict inner)) (serializeOptionItems restItems)) ∧
    (serializeOptionItems (.cons (.pyList items) restItems) =
      .cons (.pyList items) (serializeOptionItems restItems)) := by
  have hchar := lookup_serialize_option_dict k e hnd
  refine ⟨?_, ?_, ?_, ?_, ?_, ?_, rfl, ?_, rfl, rfl⟩
  · intro h; rw [hchar, h]; rfl
  · intro h; rw [hchar, h]; rfl
  · intro h hst
    rw [hchar, h]
    simp [optIsUndefined_eq_false hst]
  · intro h; rw [hchar, h]; rfl
  · intro h; rw [hchar, h]; rfl
  · intro hopt hdict hlist h
    rw [hchar, h]
    cases scalar with
    | pyOpt s => simp [isOpt] at hopt
    | pyDict f => exact absurd rfl (hdict f)
    | pyList it => exact absurd rfl (hlist it)
    | pyUndefined => rfl
    | pyNone => rfl
    | pyBool b => rfl
    | pyInt n => rfl
    | pyStr s => rfl
  · intro hst
    simp [serializeOptionItems, optIsUndefined_eq_false hst]

/-- Witness for `serialize_option_dict_behavior` on a dictionary with
one entry per behaviour and the item-level equations at concrete
lists. -/
theorem serialize_option_dict_behavior_witness :
    ((serialize_option_dict
        (.cons "a" (.pyOpt .pyUndefined)
          (.cons "b" (.pyOpt .pyNone)
            (.cons "c" (.pyOpt (.pyStr "x"))
              (.cons "n" (.pyInt 5) .nil))))).lookup "a" = none) ∧
    ((serialize_option_dict
        (.cons "a" (.pyOpt .pyUndefined)
          (.cons "b" (.pyOpt .pyNone)
            (.cons "c" (.pyOpt (.pyStr "x"))
              (.cons "n" (.pyInt 5) .nil))))).lookup "b" = some .pyNone) ∧
    ((serialize_option_dict
        (.cons "a" (.pyOpt .pyUndefined)
          (.cons "b" (.pyOpt .pyNone)
            (.cons "c" (.pyOpt (.pyStr "x"))
              (.cons "n" (.pyInt 5) .nil))))).lookup "c" = some (.pyStr "x")) ∧
    ((serialize_option_dict
        (.cons "a" (.pyOpt .pyUndefined)
          (.cons "b" (.pyOpt .pyNone)
            (.cons "c" (.pyOpt (.pyStr "x"))
              (.cons "n" (.pyInt 5) .nil))))).lookup "n" = some (.pyInt 5)) ∧
    (serializeOptionItems (.cons (.pyOpt (.pyInt 1)) .nil) = .cons (.pyInt 1) .nil) ∧
    (serializeOptionItems (.cons (.pyList (.cons (.pyOpt .pyUndefined) .nil)) .nil) =
      .cons (.pyList (.cons (.pyOpt .pyUndefined) .nil)) .nil) := by
  have h := serialize_option_dict_behavior
    (.cons "a" (.pyOpt .pyUndefined)
      (.cons "b" (.pyOpt .pyNone)
        (.cons "c" (.pyOpt (.pyStr "x"))
          (.cons "n" (.pyInt 5) .nil))))
    .nil .nil .nil "a" (.pyStr "x") (.pyInt 5) (by decide)
  refine ⟨h.1 rfl, ?_, ?_, ?_, ?_, ?_⟩
  · exact (serialize_option_dict_behavior
      (.cons "a" (.pyOpt .pyUndefined)
        (.cons "b" (.pyOpt .pyNone)
          (.cons "c" (.pyOpt (.pyStr "x"))
            (.cons "n" (.pyInt 5) .nil))))
      .nil .nil .nil "b" (.pyStr "x") (.pyInt 5) (by decide)).2.1 rfl
  · exact (serialize_option_dict_behavior
      (.cons "a" (.pyOpt .pyUndefined)
        (.cons "b" (.pyOpt .pyNone)
          (.cons "c" (.pyOpt (.pyStr "x"))
            (.cons "n" (.pyInt 5) .nil))))
      .nil .nil .nil "c" (.pyStr "x") (.pyInt 5) (by decide)).2.2.1 rfl
      (fun hh => PyVal.noConfusion hh)
  · exact (serialize_option_dict_behavior
      (.cons "a" (.pyOpt .pyUndefined)
        (.cons "b" (.pyOpt .pyNone)
          (.cons "c" (.pyOpt (.pyStr "x"))
            (.cons "n" (.pyInt 5) .nil))))
      .nil .nil .nil "n" (.pyStr "x") (.pyInt 5) (by decide)).2.2.2.2.2.1 rfl
      (fun f hh => PyVal.noConfusion hh) (fun it hh => PyVal.noConfusion hh) rfl
  · exact (serialize_option_dict_behavior .nil .nil .nil .nil "z" (.pyInt 1) (.pyInt 5)
      (by decide)).2.2.2.2.2.2.2.1 (fun hh => PyVal.noConfusion hh)
  · exact (serialize_option_dict_behavior .nil .nil
      (.cons (.pyOpt .pyUndefined) .nil) .nil "z" (.pyStr "x") (.pyInt 5)
      (by decide)).2.2.2.2.2.2.2.2.2

